import Mathlib

/-! nodepool_exporter: the scrape-and-expose cycle

A shallow embedding of `nodepool_exporter.go`.  The exporter is sequential
state passing: the state is the `Exporter` value, the outside world (the HTTP
client and the target behind it) is a function from the requested URI to the
outcome of the GET, and every observable action of one call (the GET, each
value sent on the registry channel, the closing of the body, each error-level
log line) is recorded, in program order, in a list of `Event`s.

The Prometheus client library and `fmt` are not part of the repository; the
few operations the program uses are written out below, each with the library
behaviour it stands for.  Go strings and byte slices are `String`; the
`float64` metric values 0, 1 and the counter total are natural numbers.
-/

namespace NodepoolExporter

/-! ## Library side: descriptors, metrics, counters -/

/-- Descriptor of a metric (`prometheus.Desc`): fully-qualified name, help
text and the names of the variable labels.  Constant labels are always `nil`
in this program and are left out. -/
structure Desc where
  fqName : String
  help : String
  variableLabels : List String
  deriving DecidableEq, Repr

/-- Value kinds of `prometheus.ValueType`. -/
inductive ValueType where
  | CounterValue
  | GaugeValue
  | UntypedValue
  deriving DecidableEq, Repr

/-- Sample handed to the registry (`prometheus.Metric`): its descriptor, its
kind, its value and the values of the variable labels. -/
structure Metric where
  desc : Desc
  valueType : ValueType
  value : Nat
  labelValues : List String
  deriving DecidableEq, Repr

/-- Library function `prometheus.BuildFQName`: joins the non-empty parts with
an underscore; an empty name gives the empty string. -/
def BuildFQName (ns subsystem name : String) : String :=
  if name = "" then ""
  else if ns ≠ "" ∧ subsystem ≠ "" then ns ++ "_" ++ subsystem ++ "_" ++ name
  else if ns ≠ "" then ns ++ "_" ++ name
  else if subsystem ≠ "" then subsystem ++ "_" ++ name
  else name

/-- Library function `prometheus.NewDesc` with `nil` constant labels. -/
def NewDesc (fqName help : String) (variableLabels : List String) : Desc :=
  { fqName := fqName, help := help, variableLabels := variableLabels }

/-- Library function `prometheus.MustNewConstMetric`: the number of label
values has to match the number of variable labels of the descriptor;
`none` stands for the panic on a mismatch. -/
def MustNewConstMetric (desc : Desc) (valueType : ValueType) (value : Nat)
    (labelValues : List String) : Option Metric :=
  if desc.variableLabels.length ≠ labelValues.length then none
  else some { desc := desc, valueType := valueType, value := value, labelValues := labelValues }

/-- Options of a counter (`prometheus.CounterOpts`); `Subsystem` is never set
by this program and stays empty. -/
structure CounterOpts where
  Namespace : String
  Subsystem : String := ""
  Name : String
  Help : String
  deriving DecidableEq, Repr

/-- Counter of the library (`prometheus.Counter`): a descriptor without
labels and the running total. -/
structure Counter where
  desc : Desc
  value : Nat
  deriving DecidableEq, Repr

/-- Library function `prometheus.NewCounter`: a label-free counter named by
`BuildFQName`, starting at zero. -/
def NewCounter (opts : CounterOpts) : Counter :=
  { desc := NewDesc (BuildFQName opts.Namespace opts.Subsystem opts.Name) opts.Help [],
    value := 0 }

/-- Method `Counter.Inc`: add one to the total. -/
def Counter.Inc (c : Counter) : Counter :=
  { c with value := c.value + 1 }

/-- Method `Counter.Describe`: the counter sends its own descriptor. -/
def Counter.Describe (c : Counter) : List Desc :=
  [c.desc]

/-- Method `Counter.Collect`: the counter sends itself, that is its current
total, as one metric. -/
def Counter.Collect (c : Counter) : List Metric :=
  [{ desc := c.desc, valueType := ValueType.CounterValue, value := c.value, labelValues := [] }]

/-! ## Library side: the HTTP round trip -/

/-- Result of `ioutil.ReadAll` on the response body: the bytes read so far
and the read error, if any. -/
structure ReadResult where
  data : String
  err : Option String
  deriving DecidableEq, Repr

/-- The parts of `http.Response` the program looks at: the status line, the
status code, and what reading the body will give. -/
structure Response where
  Status : String
  StatusCode : Int
  Body : ReadResult
  deriving DecidableEq, Repr

/-- Outcome of `client.Get`: a transport error with its description, or a
received response. -/
inductive GetResult where
  | failed (err : String)
  | received (resp : Response)
  deriving DecidableEq, Repr

/-- Observable actions of the exporter, in program order. -/
inductive Event where
  | get (uri : String)
  | send (m : Metric)
  | closeBody
  | logError (line : String)
  deriving DecidableEq, Repr

/-! ## The program -/

/-- Constant `namespace` of the source. -/
def namespace_ : String := "nodepool"

/-- Type `Host` of the source. -/
structure Host where
  name : String
  port : String
  deriving DecidableEq, Repr

/-- The `http.Transport` of the client; `none` is the `nil` TLS
configuration. -/
structure Transport where
  TLSClientConfig : Option Unit
  deriving DecidableEq, Repr

/-- The `http.Client` held by the exporter. -/
structure Client where
  transport : Transport
  deriving DecidableEq, Repr

/-- Type `Exporter` of the source.  The mutex has no sequential content and
is left out. -/
structure Exporter where
  scrapeHost : Host
  client : Client
  up : Desc
  scrapeFailures : Counter
  deriving DecidableEq, Repr

/-- Function `NewExporter` of the source. -/
def NewExporter (host : Host) : Exporter :=
  { scrapeHost := host,
    client := { transport := { TLSClientConfig := none } },
    up := NewDesc (BuildFQName namespace_ "" "up")
      "Could the nodepool server be reached" ["host"],
    scrapeFailures := NewCounter
      { Namespace := namespace_,
        Name := "exporter_scrape_failures_total",
        Help := "Number of errors while scraping apache." } }

/-- Method `Exporter.Describe` of the source: the descriptors sent on the
channel, and the exporter afterwards. -/
def Exporter.Describe (e : Exporter) : Exporter × List Desc :=
  (e, [e.up] ++ e.scrapeFailures.Describe)

/-- The request URI built in the first line of `collect`. -/
def scrapeURI (e : Exporter) : String :=
  "http://" ++ e.scrapeHost.name ++ ":" ++ e.scrapeHost.port ++ "/image-list"

/-- Method `Exporter.collect` of the source.  `get` is the behaviour of
`e.client.Get`.  The result is `none` when a `Must` function panics, and
otherwise the recorded events with the returned error (`none` for `nil`). -/
def Exporter.collect (e : Exporter) (get : String → GetResult) :
    Option (List Event × Option String) :=
  let uri := scrapeURI e
  match get uri with
  | GetResult.failed err =>
    match MustNewConstMetric e.up ValueType.GaugeValue 0 [e.scrapeHost.name] with
    | none => none
    | some m =>
      some ([Event.get uri, Event.send m], some ("Error scraping nodepool: " ++ err))
  | GetResult.received resp =>
    match MustNewConstMetric e.up ValueType.GaugeValue 1 [e.scrapeHost.name] with
    | none => none
    | some m =>
      let data := resp.Body.data
      let err := resp.Body.err
      let events := [Event.get uri, Event.send m, Event.closeBody]
      if resp.StatusCode ≠ 200 then
        let data := match err with
          | some msg => msg
          | none => data
        some (events, some ("Status " ++ resp.Status ++ " (" ++ toString resp.StatusCode
          ++ "): " ++ data))
      else
        some (events, none)

/-- Method `Exporter.Collect` of the source: the exporter afterwards and the
recorded events; `none` when `collect` panicked. -/
def Exporter.Collect (e : Exporter) (get : String → GetResult) :
    Option (Exporter × List Event) :=
  match e.collect get with
  | none => none
  | some (events, some err) =>
    let c := e.scrapeFailures.Inc
    some ({ e with scrapeFailures := c },
      events ++ [Event.logError ("Error scraping nodepool: " ++ err)]
        ++ c.Collect.map Event.send)
  | some (events, none) => some (e, events)

/-- A sequence of `Collect` calls on one exporter, one `get` behaviour per
call: the exporter before the first call followed by the exporter after each
call; `none` when a call panicked. -/
def CollectAll (e : Exporter) : List (String → GetResult) → Option (List Exporter)
  | [] => some [e]
  | get :: rest =>
    match e.Collect get with
    | none => none
    | some (e1, _) =>
      match CollectAll e1 rest with
      | none => none
      | some states => some (e :: states)

/-! ## Reading the recorded events -/

/-- The metrics sent on the registry channel, in order. -/
def sent (events : List Event) : List Metric :=
  events.filterMap fun ev =>
    match ev with
    | Event.send m => some m
    | _ => none

/-- The URIs requested with GET, in order. -/
def requested (events : List Event) : List String :=
  events.filterMap fun ev =>
    match ev with
    | Event.get uri => some uri
    | _ => none

/-- The error-level log lines, in order. -/
def logged (events : List Event) : List String :=
  events.filterMap fun ev =>
    match ev with
    | Event.logError line => some line
    | _ => none

/-- The sent metrics of gauge kind. -/
def gaugesSent (events : List Event) : List Metric :=
  (sent events).filter fun m => m.valueType = ValueType.GaugeValue

/-- The sent metrics of counter kind. -/
def countersSent (events : List Event) : List Metric :=
  (sent events).filter fun m => m.valueType = ValueType.CounterValue

/-- The availability gauge of exporter `e` with value `v`: descriptor `up`,
one label value, the name of the target host. -/
def upGauge (e : Exporter) (v : Nat) : Metric :=
  { desc := e.up, valueType := ValueType.GaugeValue, value := v,
    labelValues := [e.scrapeHost.name] }

/-- The failure counter of exporter `e` as a metric with total `v`. -/
def failuresMetric (e : Exporter) (v : Nat) : Metric :=
  { desc := e.scrapeFailures.desc, valueType := ValueType.CounterValue, value := v,
    labelValues := [] }

/-- Failure outcome in the words of the specification: a connection error or
a status other than 200. -/
def isFailure : GetResult → Bool
  | GetResult.failed _ => true
  | GetResult.received resp => decide (resp.StatusCode ≠ 200)

/-- Text `sub` occurs in text `msg`. -/
def Contains (msg sub : String) : Prop :=
  sub.data <:+: msg.data

instance (msg sub : String) : Decidable (Contains msg sub) :=
  inferInstanceAs (Decidable (sub.data <:+: msg.data))

/-- The error text `collect` returns for a received response with a status
other than 200. -/
def statusMessage (resp : Response) : String :=
  "Status " ++ resp.Status ++ " (" ++ toString resp.StatusCode ++ "): " ++
    (match resp.Body.err with
      | some msg => msg
      | none => resp.Body.data)

/-! ## The demonstration target: the defaults of the command line -/

/-- The default target of `main`: host `localhost`, port `8005`. -/
def defaultHost : Host := { name := "localhost", port := "8005" }

/-- A client whose every GET fails at the transport level. -/
def refusedGet : String → GetResult :=
  fun _ => GetResult.failed "dial tcp 127.0.0.1:8005: connect: connection refused"

/-- Response with status 503 and body `overloaded`. -/
def overloadedResp : Response :=
  { Status := "503 Service Unavailable", StatusCode := 503,
    Body := { data := "overloaded", err := none } }

/-- A client whose every GET receives `overloadedResp`. -/
def overloadedGet : String → GetResult :=
  fun _ => GetResult.received overloadedResp

/-- Response with status 200 and an empty body. -/
def okResp : Response :=
  { Status := "200 OK", StatusCode := 200, Body := { data := "", err := none } }

/-- A client whose every GET receives `okResp`. -/
def okGet : String → GetResult :=
  fun _ => GetResult.received okResp

/-! ## Shared lemmas: the three paths of one call -/

theorem mustNewConstMetric_up (e : Exporter) (v : Nat)
    (hlab : e.up.variableLabels.length = 1) :
    MustNewConstMetric e.up ValueType.GaugeValue v [e.scrapeHost.name] = some (upGauge e v) := by
  simp [MustNewConstMetric, upGauge, hlab]

theorem collect_failed (e : Exporter) (get : String → GetResult) (err : String)
    (hlab : e.up.variableLabels.length = 1)
    (hget : get (scrapeURI e) = GetResult.failed err) :
    e.collect get = some ([Event.get (scrapeURI e), Event.send (upGauge e 0)],
      some ("Error scraping nodepool: " ++ err)) := by
  simp [Exporter.collect, hget, mustNewConstMetric_up e 0 hlab]

theorem collect_non200 (e : Exporter) (get : String → GetResult) (resp : Response)
    (hlab : e.up.variableLabels.length = 1)
    (hget : get (scrapeURI e) = GetResult.received resp)
    (hcode : resp.StatusCode ≠ 200) :
    e.collect get = some ([Event.get (scrapeURI e), Event.send (upGauge e 1), Event.closeBody],
      some (statusMessage resp)) := by
  simp only [Exporter.collect, hget, mustNewConstMetric_up e 1 hlab, statusMessage]
  simp [hcode]

theorem collect_200 (e : Exporter) (get : String → GetResult) (resp : Response)
    (hlab : e.up.variableLabels.length = 1)
    (hget : get (scrapeURI e) = GetResult.received resp)
    (hcode : resp.StatusCode = 200) :
    e.collect get = some ([Event.get (scrapeURI e), Event.send (upGauge e 1), Event.closeBody],
      none) := by
  simp only [Exporter.collect, hget, mustNewConstMetric_up e 1 hlab]
  simp [hcode]

theorem Collect_failed (e : Exporter) (get : String → GetResult) (err : String)
    (hlab : e.up.variableLabels.length = 1)
    (hget : get (scrapeURI e) = GetResult.failed err) :
    e.Collect get = some ({ e with scrapeFailures := e.scrapeFailures.Inc },
      [Event.get (scrapeURI e), Event.send (upGauge e 0),
        Event.logError ("Error scraping nodepool: " ++ ("Error scraping nodepool: " ++ err)),
        Event.send (failuresMetric e (e.scrapeFailures.value + 1))]) := by
  simp [Exporter.Collect, collect_failed e get err hlab hget, Counter.Collect, Counter.Inc,
    failuresMetric]

theorem Collect_non200 (e : Exporter) (get : String → GetResult) (resp : Response)
    (hlab : e.up.variableLabels.length = 1)
    (hget : get (scrapeURI e) = GetResult.received resp)
    (hcode : resp.StatusCode ≠ 200) :
    e.Collect get = some ({ e with scrapeFailures := e.scrapeFailures.Inc },
      [Event.get (scrapeURI e), Event.send (upGauge e 1), Event.closeBody,
        Event.logError ("Error scraping nodepool: " ++ statusMessage resp),
        Event.send (failuresMetric e (e.scrapeFailures.value + 1))]) := by
  simp [Exporter.Collect, collect_non200 e get resp hlab hget hcode, Counter.Collect,
    Counter.Inc, failuresMetric]

theorem Collect_200 (e : Exporter) (get : String → GetResult) (resp : Response)
    (hlab : e.up.variableLabels.length = 1)
    (hget : get (scrapeURI e) = GetResult.received resp)
    (hcode : resp.StatusCode = 200) :
    e.Collect get = some (e,
      [Event.get (scrapeURI e), Event.send (upGauge e 1), Event.closeBody]) := by
  simp [Exporter.Collect, collect_200 e get resp hlab hget hcode]

/-- Every exporter made by `NewExporter` has a gauge descriptor with exactly
one variable label. -/
theorem NewExporter_up_labels (host : Host) :
    (NewExporter host).up.variableLabels.length = 1 := rfl

/-- One call never panics on an exporter whose gauge descriptor has one
label; it keeps the target and both descriptors, and adds one to the failure
counter exactly when the outcome of the GET is a failure. -/
theorem Collect_step (e : Exporter) (get : String → GetResult)
    (hlab : e.up.variableLabels.length = 1) :
    ∃ e1 events, e.Collect get = some (e1, events) ∧
      e1.scrapeHost = e.scrapeHost ∧ e1.up = e.up ∧
      e1.scrapeFailures.desc = e.scrapeFailures.desc ∧
      e1.scrapeFailures.value =
        e.scrapeFailures.value + (if isFailure (get (scrapeURI e)) then 1 else 0) := by
  cases hget : get (scrapeURI e) with
  | failed err =>
    exact ⟨_, _, Collect_failed e get err hlab hget, rfl, rfl, rfl, by simp [isFailure, Counter.Inc]⟩
  | received resp =>
    by_cases hcode : resp.StatusCode = 200
    · exact ⟨_, _, Collect_200 e get resp hlab hget hcode, rfl, rfl, rfl, by simp [isFailure, hcode]⟩
    · exact ⟨_, _, Collect_non200 e get resp hlab hget hcode, rfl, rfl, rfl,
        by simp [isFailure, hcode, Counter.Inc]⟩

theorem scrapeURI_congr (e e1 : Exporter) (h : e1.scrapeHost = e.scrapeHost) :
    scrapeURI e1 = scrapeURI e := by
  simp [scrapeURI, h]

theorem contains_append_left (a b sub : String) (h : Contains a sub) : Contains (a ++ b) sub := by
  unfold Contains at *
  rw [String.data_append]
  exact h.trans (List.prefix_append a.data b.data).isInfix

theorem contains_append_right (a b sub : String) (h : Contains b sub) : Contains (a ++ b) sub := by
  unfold Contains at *
  rw [String.data_append]
  exact h.trans (List.suffix_append a.data b.data).isInfix

theorem contains_self (a : String) : Contains a a :=
  List.infix_refl a.data

/-! ## Connection failure -/

/-- C1: on every exporter whose gauge descriptor takes one label (as built
by `NewExporter` and kept by `Collect`), when the GET of a call to `Collect`
returns a transport error, the call sends the availability gauge with value 0 labelled with the name of the
target host (and no other gauge), and the failure counter goes from `n` to
exactly `n + 1`. -/
theorem Collect_connection_error (e : Exporter) (get : String → GetResult) (n : Nat)
    (err : String)
    (hlab : e.up.variableLabels.length = 1)
    (hn : e.scrapeFailures.value = n)
    (hget : get (scrapeURI e) = GetResult.failed err) :
    ∃ e1 events, e.Collect get = some (e1, events) ∧
      gaugesSent events =
        [{ desc := e.up, valueType := ValueType.GaugeValue, value := 0,
           labelValues := [e.scrapeHost.name] }] ∧
      e1.scrapeFailures.value = n + 1 := by
  refine ⟨_, _, Collect_failed e get err hlab hget, ?_, ?_⟩
  · simp [gaugesSent, sent, upGauge, failuresMetric]
  · simp [Counter.Inc, hn]

theorem Collect_connection_error_witness :
    (NewExporter defaultHost).up.variableLabels.length = 1 ∧
    (NewExporter defaultHost).scrapeFailures.value = 0 ∧
    refusedGet (scrapeURI (NewExporter defaultHost)) =
      GetResult.failed "dial tcp 127.0.0.1:8005: connect: connection refused" ∧
    ∃ e1 events, (NewExporter defaultHost).Collect refusedGet = some (e1, events) ∧
      gaugesSent events =
        [{ desc := (NewExporter defaultHost).up, valueType := ValueType.GaugeValue, value := 0,
           labelValues := ["localhost"] }] ∧
      e1.scrapeFailures.value = 0 + 1 :=
  ⟨rfl, rfl, rfl,
    Collect_connection_error (NewExporter defaultHost) refusedGet 0
      "dial tcp 127.0.0.1:8005: connect: connection refused" rfl rfl rfl⟩

/-! ## Received response, status other than 200 -/

/-- C2: on every exporter whose gauge descriptor takes one label, for every
received response whose status code is not 200, whatever its body and
whether or not the body could be read, `Collect` sends the
availability gauge with value 1 labelled with the name of the target host,
sends no gauge with value 0, and the failure counter goes from `n` to exactly
`n + 1`. -/
theorem Collect_non200_status (e : Exporter) (get : String → GetResult) (n : Nat)
    (resp : Response)
    (hlab : e.up.variableLabels.length = 1)
    (hn : e.scrapeFailures.value = n)
    (hget : get (scrapeURI e) = GetResult.received resp)
    (hcode : resp.StatusCode ≠ 200) :
    ∃ e1 events, e.Collect get = some (e1, events) ∧
      gaugesSent events =
        [{ desc := e.up, valueType := ValueType.GaugeValue, value := 1,
           labelValues := [e.scrapeHost.name] }] ∧
      (∀ m ∈ sent events, m.valueType = ValueType.GaugeValue → m.value ≠ 0) ∧
      e1.scrapeFailures.value = n + 1 := by
  refine ⟨_, _, Collect_non200 e get resp hlab hget hcode, ?_, ?_, ?_⟩
  · simp [gaugesSent, sent, upGauge, failuresMetric]
  · simp [sent, upGauge, failuresMetric]
  · simp [Counter.Inc, hn]

theorem Collect_non200_status_witness :
    (NewExporter defaultHost).up.variableLabels.length = 1 ∧
    (NewExporter defaultHost).scrapeFailures.value = 0 ∧
    overloadedGet (scrapeURI (NewExporter defaultHost)) =
      GetResult.received overloadedResp ∧
    overloadedResp.StatusCode ≠ 200 ∧
    ∃ e1 events, (NewExporter defaultHost).Collect overloadedGet = some (e1, events) ∧
      gaugesSent events =
        [{ desc := (NewExporter defaultHost).up, valueType := ValueType.GaugeValue, value := 1,
           labelValues := ["localhost"] }] ∧
      (∀ m ∈ sent events, m.valueType = ValueType.GaugeValue → m.value ≠ 0) ∧
      e1.scrapeFailures.value = 0 + 1 :=
  ⟨rfl, rfl, rfl, by decide,
    Collect_non200_status (NewExporter defaultHost) overloadedGet 0 overloadedResp
      rfl rfl rfl (by decide)⟩

/-! ## Received response, status 200 -/

/-- C3: on every exporter whose gauge descriptor takes one label, for every
received response with status code 200, for every body
(the empty one included) and also when reading the body fails, `collect`
returns no error, `Collect` sends the availability gauge with value 1 for the
target host, logs no error, sends no counter, and leaves the exporter, and so
its failure counter `n`, as it was. -/
theorem Collect_status_200 (e : Exporter) (get : String → GetResult) (n : Nat)
    (resp : Response)
    (hlab : e.up.variableLabels.length = 1)
    (hn : e.scrapeFailures.value = n)
    (hget : get (scrapeURI e) = GetResult.received resp)
    (hcode : resp.StatusCode = 200) :
    ∃ e1 events, e.collect get = some (events, none) ∧
      e.Collect get = some (e1, events) ∧
      gaugesSent events =
        [{ desc := e.up, valueType := ValueType.GaugeValue, value := 1,
           labelValues := [e.scrapeHost.name] }] ∧
      logged events = [] ∧
      countersSent events = [] ∧
      e1 = e ∧ e1.scrapeFailures.value = n := by
  refine ⟨_, _, collect_200 e get resp hlab hget hcode,
    Collect_200 e get resp hlab hget hcode, ?_, ?_, ?_, rfl, hn⟩
  · simp [gaugesSent, sent, upGauge]
  · simp [logged]
  · simp [countersSent, sent, upGauge]

theorem Collect_status_200_witness :
    (NewExporter defaultHost).up.variableLabels.length = 1 ∧
    (NewExporter defaultHost).scrapeFailures.value = 0 ∧
    okGet (scrapeURI (NewExporter defaultHost)) =
      GetResult.received okResp ∧
    okResp.StatusCode = 200 ∧
    ∃ e1 events, (NewExporter defaultHost).collect okGet = some (events, none) ∧
      (NewExporter defaultHost).Collect okGet = some (e1, events) ∧
      gaugesSent events =
        [{ desc := (NewExporter defaultHost).up, valueType := ValueType.GaugeValue, value := 1,
           labelValues := ["localhost"] }] ∧
      logged events = [] ∧
      countersSent events = [] ∧
      e1 = NewExporter defaultHost ∧ e1.scrapeFailures.value = 0 :=
  ⟨rfl, rfl, rfl, rfl,
    Collect_status_200 (NewExporter defaultHost) okGet 0 okResp rfl rfl rfl rfl⟩

/-! ## Sequences of calls -/

/-- C4: over every finite sequence of `Collect` calls on one exporter whose
gauge descriptor takes one label, with arbitrary outcomes of the GETs, no call panics, the failure counter never
decreases from one call to the next, and its final value is its initial value
plus the number of calls whose outcome was a failure (connection error or
status other than 200). -/
theorem CollectAll_counter (e : Exporter) (gets : List (String → GetResult))
    (hlab : e.up.variableLabels.length = 1) :
    ∃ states last, CollectAll e gets = some states ∧
      states.length = gets.length + 1 ∧
      states.head? = some e ∧
      List.Chain' (fun a b : Exporter => a.scrapeFailures.value ≤ b.scrapeFailures.value)
        states ∧
      states.getLast? = some last ∧
      last.scrapeFailures.value =
        e.scrapeFailures.value + gets.countP (fun get => isFailure (get (scrapeURI e))) := by
  induction gets generalizing e with
  | nil =>
    exact ⟨[e], e, rfl, rfl, rfl, List.chain'_singleton e, rfl, by simp⟩
  | cons get rest ih =>
    obtain ⟨e1, events, hstep, hhost, hup, _, hval⟩ := Collect_step e get hlab
    obtain ⟨states, last, hall, hlen, hhead, hchain, hlast, hfinal⟩ := ih e1 (hup ▸ hlab)
    refine ⟨e :: states, last, ?_, ?_, rfl, ?_, ?_, ?_⟩
    · simp [CollectAll, hstep, hall]
    · simp [hlen]
    · rw [List.chain'_cons']
      refine ⟨?_, hchain⟩
      intro y hy
      rw [hhead] at hy
      cases hy
      rw [hval]
      exact Nat.le_add_right _ _
    · cases states with
      | nil => simp at hlen
      | cons s ss => simpa [List.getLast?_cons_cons] using hlast
    · rw [hfinal, hval, scrapeURI_congr e e1 hhost, List.countP_cons]
      generalize List.countP (fun get => isFailure (get (scrapeURI e))) rest = k
      by_cases hfail : isFailure (get (scrapeURI e)) = true
      · simp only [hfail, if_true]
        exact Nat.add_right_comm _ _ _
      · simp [hfail]

theorem CollectAll_counter_witness :
    (NewExporter defaultHost).up.variableLabels.length = 1 ∧
    ∃ states last,
      CollectAll (NewExporter defaultHost) [refusedGet, okGet, overloadedGet] = some states ∧
      states.length = [refusedGet, okGet, overloadedGet].length + 1 ∧
      states.head? = some (NewExporter defaultHost) ∧
      List.Chain' (fun a b : Exporter => a.scrapeFailures.value ≤ b.scrapeFailures.value)
        states ∧
      states.getLast? = some last ∧
      last.scrapeFailures.value =
        (NewExporter defaultHost).scrapeFailures.value +
          [refusedGet, okGet, overloadedGet].countP
            (fun get => isFailure (get (scrapeURI (NewExporter defaultHost)))) :=
  ⟨rfl, CollectAll_counter (NewExporter defaultHost) [refusedGet, okGet, overloadedGet] rfl⟩

/-! ## What reaches the registry channel -/

/-- C5: in every call to `Collect` on an exporter whose gauge descriptor
takes one label, the failure counter is sent on the
registry channel exactly when the call failed (connection error or status
other than 200); it is then sent once, after the gauge, and carries the total
after the increment, the prior value plus one. -/
theorem Collect_sends_counter_iff_failed (e : Exporter) (get : String → GetResult) (n : Nat)
    (hlab : e.up.variableLabels.length = 1)
    (hn : e.scrapeFailures.value = n) :
    ∃ e1 events v, e.Collect get = some (e1, events) ∧
      sent events =
        { desc := e.up, valueType := ValueType.GaugeValue, value := v,
          labelValues := [e.scrapeHost.name] } ::
          (if isFailure (get (scrapeURI e)) then
            [{ desc := e.scrapeFailures.desc, valueType := ValueType.CounterValue,
               value := n + 1, labelValues := [] }]
          else []) ∧
      (countersSent events).length = (if isFailure (get (scrapeURI e)) then 1 else 0) := by
  cases hget : get (scrapeURI e) with
  | failed err =>
    refine ⟨_, _, 0, Collect_failed e get err hlab hget, ?_, ?_⟩
    · simp [sent, upGauge, failuresMetric, isFailure, hn]
    · simp [countersSent, sent, upGauge, failuresMetric, isFailure]
  | received resp =>
    by_cases hcode : resp.StatusCode = 200
    · refine ⟨_, _, 1, Collect_200 e get resp hlab hget hcode, ?_, ?_⟩
      · simp [sent, upGauge, isFailure, hcode]
      · simp [countersSent, sent, upGauge, isFailure, hcode]
    · refine ⟨_, _, 1, Collect_non200 e get resp hlab hget hcode, ?_, ?_⟩
      · simp [sent, upGauge, failuresMetric, isFailure, hcode, hn]
      · simp [countersSent, sent, upGauge, failuresMetric, isFailure, hcode]

theorem Collect_sends_counter_iff_failed_witness :
    (NewExporter defaultHost).up.variableLabels.length = 1 ∧
    (NewExporter defaultHost).scrapeFailures.value = 0 ∧
    ∃ e1 events v, (NewExporter defaultHost).Collect overloadedGet = some (e1, events) ∧
      sent events =
        { desc := (NewExporter defaultHost).up, valueType := ValueType.GaugeValue, value := v,
          labelValues := [(NewExporter defaultHost).scrapeHost.name] } ::
          (if isFailure (overloadedGet (scrapeURI (NewExporter defaultHost))) then
            [{ desc := (NewExporter defaultHost).scrapeFailures.desc,
               valueType := ValueType.CounterValue, value := 0 + 1, labelValues := [] }]
          else []) ∧
      (countersSent events).length =
        (if isFailure (overloadedGet (scrapeURI (NewExporter defaultHost))) then 1 else 0) :=
  ⟨rfl, rfl, Collect_sends_counter_iff_failed (NewExporter defaultHost) overloadedGet 0 rfl rfl⟩

/-! ## The request -/

/-- C6: for every host text and port text of the target (and a gauge
descriptor with one label), `collect` requests
with GET exactly the URI `http://` host `:` port `/image-list`, it issues
exactly one GET whatever the outcome, and its result depends on the client
only through the outcome of that one request. -/
theorem collect_requests_once (e : Exporter) (get : String → GetResult)
    (hlab : e.up.variableLabels.length = 1) :
    ∃ events err, e.collect get = some (events, err) ∧
      requested events =
        ["http://" ++ e.scrapeHost.name ++ ":" ++ e.scrapeHost.port ++ "/image-list"] ∧
      ∀ get2 : String → GetResult,
        get2 ("http://" ++ e.scrapeHost.name ++ ":" ++ e.scrapeHost.port ++ "/image-list") =
          get ("http://" ++ e.scrapeHost.name ++ ":" ++ e.scrapeHost.port ++ "/image-list") →
        e.collect get2 = e.collect get := by
  have huri : "http://" ++ e.scrapeHost.name ++ ":" ++ e.scrapeHost.port ++ "/image-list" =
      scrapeURI e := rfl
  rw [huri]
  have hsame : ∀ get2 : String → GetResult, get2 (scrapeURI e) = get (scrapeURI e) →
      e.collect get2 = e.collect get := by
    intro get2 h
    simp only [Exporter.collect, h]
  cases hget : get (scrapeURI e) with
  | failed err =>
    rw [← hget]
    exact ⟨_, _, collect_failed e get err hlab hget, by simp [requested], hsame⟩
  | received resp =>
    rw [← hget]
    by_cases hcode : resp.StatusCode = 200
    · exact ⟨_, _, collect_200 e get resp hlab hget hcode, by simp [requested], hsame⟩
    · exact ⟨_, _, collect_non200 e get resp hlab hget hcode, by simp [requested], hsame⟩

theorem collect_requests_once_witness :
    (NewExporter defaultHost).up.variableLabels.length = 1 ∧
    ∃ events err, (NewExporter defaultHost).collect okGet = some (events, err) ∧
      requested events =
        ["http://" ++ (NewExporter defaultHost).scrapeHost.name ++ ":" ++
          (NewExporter defaultHost).scrapeHost.port ++ "/image-list"] ∧
      ∀ get2 : String → GetResult,
        get2 ("http://" ++ (NewExporter defaultHost).scrapeHost.name ++ ":" ++
          (NewExporter defaultHost).scrapeHost.port ++ "/image-list") =
          okGet ("http://" ++ (NewExporter defaultHost).scrapeHost.name ++ ":" ++
            (NewExporter defaultHost).scrapeHost.port ++ "/image-list") →
        (NewExporter defaultHost).collect get2 = (NewExporter defaultHost).collect okGet :=
  ⟨rfl, collect_requests_once (NewExporter defaultHost) okGet rfl⟩

/-! ## The error for a status other than 200 -/

/-- C7: for every received response with status code `c` other than 200 and
status line `s`, on an exporter whose gauge descriptor takes one label,
`collect` returns an error whose text contains `s` and the
decimal rendering of `c`; it contains the body when the body was read without
error, and when the read failed it is the status part followed by the
description of the read error, with no part of it taken from the bytes read
before the failure. -/
theorem collect_non200_message (e : Exporter) (get : String → GetResult) (resp : Response)
    (hlab : e.up.variableLabels.length = 1)
    (hget : get (scrapeURI e) = GetResult.received resp)
    (hcode : resp.StatusCode ≠ 200) :
    ∃ events msg, e.collect get = some (events, some msg) ∧
      Contains msg resp.Status ∧
      Contains msg (toString resp.StatusCode) ∧
      (resp.Body.err = none → Contains msg resp.Body.data) ∧
      (∀ d, resp.Body.err = some d →
        Contains msg d ∧
        msg = "Status " ++ resp.Status ++ " (" ++ toString resp.StatusCode ++ "): " ++ d) := by
  refine ⟨_, _, collect_non200 e get resp hlab hget hcode, ?_, ?_, ?_, ?_⟩
  · unfold statusMessage
    exact contains_append_left _ _ _ (contains_append_left _ _ _ (contains_append_left _ _ _
      (contains_append_left _ _ _ (contains_append_right _ _ _ (contains_self _)))))
  · unfold statusMessage
    exact contains_append_left _ _ _ (contains_append_left _ _ _
      (contains_append_right _ _ _ (contains_self _)))
  · intro h
    unfold statusMessage
    rw [h]
    exact contains_append_right _ _ _ (contains_self _)
  · intro d h
    unfold statusMessage
    rw [h]
    exact ⟨contains_append_right _ _ _ (contains_self _), rfl⟩

theorem collect_non200_message_witness :
    (NewExporter defaultHost).up.variableLabels.length = 1 ∧
    overloadedGet (scrapeURI (NewExporter defaultHost)) = GetResult.received overloadedResp ∧
    overloadedResp.StatusCode ≠ 200 ∧
    toString overloadedResp.StatusCode = "503" ∧
    overloadedResp.Body.data = "overloaded" ∧
    ∃ events msg, (NewExporter defaultHost).collect overloadedGet = some (events, some msg) ∧
      Contains msg overloadedResp.Status ∧
      Contains msg (toString overloadedResp.StatusCode) ∧
      (overloadedResp.Body.err = none → Contains msg overloadedResp.Body.data) ∧
      (∀ d, overloadedResp.Body.err = some d →
        Contains msg d ∧
        msg = "Status " ++ overloadedResp.Status ++ " (" ++
          toString overloadedResp.StatusCode ++ "): " ++ d) :=
  ⟨rfl, rfl, by decide, by decide, rfl,
    collect_non200_message (NewExporter defaultHost) overloadedGet overloadedResp
      rfl rfl (by decide)⟩

/-! ## Construction and description -/

/-- C9: for every target, `NewExporter` returns an exporter that stores the
target, whose gauge descriptor is named `nodepool_up`, the namespace followed
by `_up`, with the single label `host`, and whose failure counter is named
`nodepool_exporter_scrape_failures_total` and starts at 0.  Construction is a
total function, so it never fails. -/
theorem NewExporter_spec (host : Host) :
    (NewExporter host).scrapeHost = host ∧
    (NewExporter host).up.fqName = "nodepool_up" ∧
    (NewExporter host).up.fqName = namespace_ ++ "_up" ∧
    (NewExporter host).up.variableLabels = ["host"] ∧
    (NewExporter host).scrapeFailures.desc.fqName = "nodepool_exporter_scrape_failures_total" ∧
    (NewExporter host).scrapeFailures.value = 0 := by
  refine ⟨rfl, ?_, ?_, rfl, ?_, rfl⟩
  · show BuildFQName namespace_ "" "up" = "nodepool_up"
    decide
  · show BuildFQName namespace_ "" "up" = namespace_ ++ "_up"
    decide
  · show BuildFQName namespace_ "" "exporter_scrape_failures_total" =
      "nodepool_exporter_scrape_failures_total"
    decide

/-- C10: in every state of the exporter `Describe` sends exactly two
descriptors, the one of the availability gauge and then the one of the
failure counter, and leaves the exporter unchanged; so any number of calls
give the same two descriptors, whatever the current value of the counter. -/
theorem Describe_spec (e : Exporter) :
    (e.Describe).2 = [e.up, e.scrapeFailures.desc] ∧
    (e.Describe).1 = e ∧
    (∀ k : Nat, ((fun x : Exporter => (x.Describe).1)^[k] e).Describe = e.Describe) ∧
    (∀ v : Nat,
      (Exporter.Describe { e with scrapeFailures := { e.scrapeFailures with value := v } }).2 =
        (e.Describe).2) := by
  refine ⟨rfl, rfl, ?_, fun _ => rfl⟩
  intro k
  induction k with
  | zero => rfl
  | succ k ih => rw [Function.iterate_succ_apply]; exact ih

end NodepoolExporter
